import Mathlib

/-!
# Verification of the 28-day consistency scorer (`functions/src/scoring.ts`)

Shallow embedding conventions:
* a JS `Date` / instant is its Unix-epoch value in milliseconds, as `ℤ`;
* an ISO `YYYY-MM-DD` date string (always produced here via
  `toISOString().split("T")[0]` in UTC) is represented by its UTC day index
  (days since 1970-01-01), to which it is in bijection;
* JS floating-point arithmetic on the score components is modelled exactly
  over `ℚ`;
* `Math.floor` on a quotient of instants is `Int.fdiv`; `Math.round` is
  `fun q => ⌊q + 1/2⌋` (round half toward +∞, as in JS).
-/

def msPerDay : Int := 86400000

/-- UTC day index of an instant: the date part of `toISOString()`. -/
def dayOf (t : Int) : Int := t.fdiv msPerDay

/-- `Date.prototype.getUTCDay()`: 0 = Sunday … 6 = Saturday.
1970-01-01 (day 0) was a Thursday (= 4). -/
def weekdayOf (t : Int) : Int := (dayOf t + 4) % 7

/-- `SessionSummary` from `types.ts`; only `startDate` takes part in
scoring, the other fields are carried for fidelity. -/
structure SessionSummary where
  sessionId : String
  userId : String
  startDate : Int
  endDate : Int
  durationMinutes : ℚ
deriving DecidableEq

/-- `ConsistencyMetrics` from `types.ts`. -/
structure ConsistencyMetrics where
  totalDays : Nat
  daysWithActivity : Nat
  longestGap : Int
  averageSessionsPerActiveDay : ℚ
  weeklyDistribution : List Nat
  totalSessions : Nat
deriving DecidableEq

/-- `DailySessionCount` from `types.ts` (`date` is the day index standing
for the ISO date string). -/
structure DailySessionCount where
  date : Int
  count : Nat
deriving DecidableEq

/-- `ConsistencyScore` from `types.ts`. -/
structure ConsistencyScore where
  score : Int
  explanations : List String
  chartData : List DailySessionCount
  periodStart : Int
  periodEnd : Int
deriving DecidableEq

/-- JS `Math.round`: nearest integer, ties toward +∞. -/
def jsRound (q : ℚ) : Int := ⌊q + 1/2⌋

/-- JS `Number.prototype.toFixed(1)` on a non-negative rational: one decimal
digit, rounding to nearest with ties away from zero. -/
def jsToFixed1 (q : Rat) : String :=
  let n := (⌊q * 10 + 1/2⌋).toNat
  toString (n / 10) ++ "." ++ toString (n % 10)

/-- The filter `(s) => s.startDate >= periodStart && s.startDate <= periodEnd`
applied in both `calculateMetrics` and `generateChartData`. -/
def relevantSessions (sessions : List SessionSummary)
    (periodStart periodEnd : Int) : List SessionSummary :=
  sessions.filter (fun s => decide (periodStart ≤ s.startDate ∧ s.startDate ≤ periodEnd))

/-- The interior-gap loop of `calculateLongestGap`, on the list of
UTC-midnight instants of the sorted active dates, threading the running
maximum `acc`:
`gap = Math.floor((curr - prev) / 86400000) - 1; maxGap = max(maxGap, gap)`. -/
def interiorGapsMax : List Int → Int → Int
  | a :: b :: rest, acc =>
      interiorGapsMax (b :: rest) (max acc ((b - a).fdiv msPerDay - 1))
  | _, acc => acc

/-- `calculateLongestGap` from `scoring.ts`.  `activeDays` is the key set of
`sessionsByDay` as day indices; the source parses each key as the UTC-midnight
instant `d * 86400000` and sorts by time, and `d ↦ d * 86400000` is strictly
monotone, so the day indices are sorted directly and scaled where the source
uses the instants. -/
def calculateLongestGap (activeDays : List Int) (periodStart periodEnd : Int) : Int :=
  if activeDays.isEmpty then 28
  else
    let sorted := activeDays.insertionSort (· ≤ ·)
    let gapFromStart := (sorted.headD 0 * msPerDay - periodStart).fdiv msPerDay
    let maxGap1 := max 0 gapFromStart
    let maxGap2 := interiorGapsMax (sorted.map (· * msPerDay)) maxGap1
    max maxGap2 ((periodEnd - sorted.getLastD 0 * msPerDay).fdiv msPerDay)

/-- `calculateMetrics` from `scoring.ts`.  The keys of the JS `Map`
`sessionsByDay` in first-insertion order are `dedup` of the mapped dates;
`weeklyDistribution[w]` accumulated by per-session increments is the count of
relevant sessions whose weekday is `w`. -/
def calculateMetrics (sessions : List SessionSummary)
    (periodStart periodEnd : Int) : ConsistencyMetrics :=
  let relevant := relevantSessions sessions periodStart periodEnd
  let activeDays := (relevant.map (fun s => dayOf s.startDate)).dedup
  let weeklyDistribution := (List.range 7).map
    (fun (w : ℕ) => (relevant.filter (fun s => decide (weekdayOf s.startDate = (w : Int)))).length)
  let daysWithActivity := activeDays.length
  let longestGap := calculateLongestGap activeDays periodStart periodEnd
  let totalSessions := relevant.length
  let averageSessionsPerActiveDay : ℚ :=
    if daysWithActivity > 0 then (totalSessions : ℚ) / (daysWithActivity : ℚ) else 0
  { totalDays := 28
    daysWithActivity := daysWithActivity
    longestGap := longestGap
    averageSessionsPerActiveDay := averageSessionsPerActiveDay
    weeklyDistribution := weeklyDistribution
    totalSessions := totalSessions }

/-- `calculateFrequencyScore` from `scoring.ts`. -/
def calculateFrequencyScore (m : ConsistencyMetrics) : ℚ :=
  ((m.daysWithActivity : ℚ) / (m.totalDays : ℚ)) * 50

/-- `calculateGapScore` from `scoring.ts`. -/
def calculateGapScore (m : ConsistencyMetrics) : ℚ :=
  if m.longestGap ≤ 3 then 25
  else if m.longestGap ≥ 14 then 0
  else ((14 - (m.longestGap : ℚ)) / 11) * 25

/-- `calculateDistributionScore` from `scoring.ts`. -/
def calculateDistributionScore (m : ConsistencyMetrics) : ℚ :=
  if m.daysWithActivity = 0 then 0
  else (((m.weeklyDistribution.filter (fun c => decide (c > 0))).length : ℚ) / 7) * 15

/-- `calculateIntensityScore` from `scoring.ts`. -/
def calculateIntensityScore (m : ConsistencyMetrics) : ℚ :=
  if m.daysWithActivity = 0 then 0
  else
    let r := m.averageSessionsPerActiveDay
    if r ≥ 2 then 10
    else if r ≤ 1 then 0
    else (r - 1) * 10

/-- `generateExplanations` from `scoring.ts`; the sequence of `push`es is
built as a list with the same order and the same guards. -/
def generateExplanations (m : ConsistencyMetrics) : List String :=
  let d := m.daysWithActivity
  let firstSentence := s!"You trained on {d} out of 28 days"
  let g := m.longestGap
  let gapSentence :=
    if g = 0 then "Amazing! No gaps in your training"
    else if g = 1 then "Longest break: 1 day"
    else s!"Longest break: {g} days"
  let daysOfWeek := (m.weeklyDistribution.filter (fun c => decide (c > 0))).length
  let spread :=
    if daysOfWeek ≥ 6 then ["Great variety! You trained on 6+ different weekdays"]
    else if daysOfWeek ≥ 4 then [s!"Good spread across {daysOfWeek} different weekdays"]
    else if daysOfWeek > 0 then [s!"Training focused on {daysOfWeek} weekdays"]
    else []
  let avg := m.averageSessionsPerActiveDay
  let avgText := jsToFixed1 avg
  let intensity :=
    if avg ≥ 1.4 then [s!"High intensity: {avgText} sessions per active day"] else []
  firstSentence :: gapSentence :: (spread ++ intensity)

/-- `generateChartData` from `scoring.ts`: the loop starts at the
UTC-midnight instant `periodStart` and steps one day at a time, so entry `i`
carries date `dayOf periodStart + i`; its count is the `countsByDay` bucket
for that date, i.e. the number of relevant sessions on it, or 0. -/
def generateChartData (sessions : List SessionSummary)
    (periodStart periodEnd : Int) : List DailySessionCount :=
  let relevant := relevantSessions sessions periodStart periodEnd
  (List.range 28).map (fun (i : ℕ) =>
    { date := dayOf periodStart + (i : Int)
      count := (relevant.filter (fun s => decide (dayOf s.startDate = dayOf periodStart + (i : Int)))).length })

/-- `periodEnd` of `calculateConsistencyScore`: the reference date with UTC
time set to 23:59:59.999. -/
def windowEnd (referenceDate : Int) : Int :=
  dayOf referenceDate * msPerDay + (msPerDay - 1)

/-- `periodStart` of `calculateConsistencyScore`: 27 days before `periodEnd`,
at UTC midnight. -/
def windowStart (referenceDate : Int) : Int :=
  (dayOf referenceDate - 27) * msPerDay

/-- `calculateConsistencyScore` from `scoring.ts`. -/
def calculateConsistencyScore (sessions : List SessionSummary)
    (referenceDate : Int) : ConsistencyScore :=
  let periodEnd := windowEnd referenceDate
  let periodStart := windowStart referenceDate
  let metrics := calculateMetrics sessions periodStart periodEnd
  let frequencyScore := calculateFrequencyScore metrics
  let gapScore := calculateGapScore metrics
  let distributionScore := calculateDistributionScore metrics
  let intensityScore := calculateIntensityScore metrics
  let totalScore := jsRound (frequencyScore + gapScore + distributionScore + intensityScore)
  { score := min 100 (max 0 totalScore)
    explanations := generateExplanations metrics
    chartData := generateChartData sessions periodStart periodEnd
    periodStart := dayOf periodStart
    periodEnd := dayOf periodEnd }

/-!
## Fixture: the documented walkthrough

Reference instant 2024-02-15T23:59:59Z (day index 19768), as in the test
suite; the 28-day window then runs over day indices 19741 .. 19768
(2024-01-19 .. 2024-02-15), and day `k` of the window (1-based) is index
`19740 + k`.  Sessions at 10:00 UTC on window days 1, 5, 8, 10, 15, 17, 22,
24, 27, with a second session at 18:00 on day 5 (10 sessions, 9 active days).
-/

def mkSession (day : Int) (hour : Int) : SessionSummary :=
  { sessionId := "s", userId := "u"
    startDate := day * msPerDay + hour * 3600000
    endDate := day * msPerDay + hour * 3600000 + 2700000
    durationMinutes := 45 }

def fixtureRef : Int := 19768 * msPerDay + 86399000

def fixtureSessions : List SessionSummary :=
  [mkSession 19741 10, mkSession 19745 10, mkSession 19745 18,
   mkSession 19748 10, mkSession 19750 10, mkSession 19755 10,
   mkSession 19757 10, mkSession 19762 10, mkSession 19764 10,
   mkSession 19767 10]


/-- Claim C2: on the documented walkthrough fixture (10 sessions on the 9
distinct window days 1,5,8,10,15,17,22,24,27, longest gap 4, 4 distinct
active weekdays), `calculateConsistencyScore` returns score exactly 48, with
subscores exactly 225/14 ≈ 16.07, 250/11 ≈ 22.73, 60/7 ≈ 8.57 and
10/9 ≈ 1.1, and the first explanation is "You trained on 9 out of 28 days". -/
theorem walkthrough_fixture_score :
    (calculateConsistencyScore fixtureSessions fixtureRef).score = 48 ∧
    (calculateConsistencyScore fixtureSessions fixtureRef).explanations.head? =
      some "You trained on 9 out of 28 days" ∧
    (calculateMetrics fixtureSessions (windowStart fixtureRef) (windowEnd fixtureRef)).daysWithActivity = 9 ∧
    (calculateMetrics fixtureSessions (windowStart fixtureRef) (windowEnd fixtureRef)).longestGap = 4 ∧
    (calculateMetrics fixtureSessions (windowStart fixtureRef) (windowEnd fixtureRef)).totalSessions = 10 ∧
    calculateFrequencyScore (calculateMetrics fixtureSessions (windowStart fixtureRef) (windowEnd fixtureRef)) = 225 / 14 ∧
    calculateGapScore (calculateMetrics fixtureSessions (windowStart fixtureRef) (windowEnd fixtureRef)) = 250 / 11 ∧
    calculateDistributionScore (calculateMetrics fixtureSessions (windowStart fixtureRef) (windowEnd fixtureRef)) = 60 / 7 ∧
    calculateIntensityScore (calculateMetrics fixtureSessions (windowStart fixtureRef) (windowEnd fixtureRef)) = 10 / 9 := by
  have hm : calculateMetrics fixtureSessions (windowStart fixtureRef) (windowEnd fixtureRef) =
      ⟨28, 9, 4, (10:ℚ)/9, [3,0,2,1,0,4,0], 10⟩ := rfl
  have hl : (([3,0,2,1,0,4,0] : List ℕ).filter (fun c => decide (c > 0))).length = 4 := by decide
  refine ⟨?_, by decide, by decide, by decide, by decide, ?_, ?_, ?_, ?_⟩
  · show (calculateConsistencyScore fixtureSessions fixtureRef).score = 48
    simp only [calculateConsistencyScore, hm, calculateFrequencyScore, calculateGapScore,
      calculateDistributionScore, calculateIntensityScore, jsRound, hl]
    norm_num
  · rw [hm, calculateFrequencyScore]; norm_num
  · rw [hm, calculateGapScore]; norm_num
  · rw [hm, calculateDistributionScore]; simp only [hl]; norm_num
  · rw [hm, calculateIntensityScore]; norm_num

/-- The `score` field of the result, unfolded. -/
theorem score_proj (sessions : List SessionSummary) (referenceDate : Int) :
    (calculateConsistencyScore sessions referenceDate).score =
      min 100 (max 0 (jsRound
        (calculateFrequencyScore (calculateMetrics sessions (windowStart referenceDate) (windowEnd referenceDate)) +
         calculateGapScore (calculateMetrics sessions (windowStart referenceDate) (windowEnd referenceDate)) +
         calculateDistributionScore (calculateMetrics sessions (windowStart referenceDate) (windowEnd referenceDate)) +
         calculateIntensityScore (calculateMetrics sessions (windowStart referenceDate) (windowEnd referenceDate))))) := rfl

/-- The `explanations` field of the result, unfolded. -/
theorem explanations_proj (sessions : List SessionSummary) (referenceDate : Int) :
    (calculateConsistencyScore sessions referenceDate).explanations =
      generateExplanations (calculateMetrics sessions (windowStart referenceDate) (windowEnd referenceDate)) := rfl

/-- The `chartData` field of the result, unfolded. -/
theorem chartData_proj (sessions : List SessionSummary) (referenceDate : Int) :
    (calculateConsistencyScore sessions referenceDate).chartData =
      generateChartData sessions (windowStart referenceDate) (windowEnd referenceDate) := rfl

/-- Claim C4: the scorer is total — every well-typed input yields a result
with a score in range, a non-empty explanation list and a 28-entry chart —
and the empty session list yields score 0, longest gap 28, the two
zero-activity explanations (the first mentioning "0 out of 28 days"), and 28
chart entries all of count 0. -/
theorem total_and_empty_behavior :
    (∀ (sessions : List SessionSummary) (referenceDate : Int),
        0 ≤ (calculateConsistencyScore sessions referenceDate).score ∧
        (calculateConsistencyScore sessions referenceDate).score ≤ 100 ∧
        (calculateConsistencyScore sessions referenceDate).explanations ≠ [] ∧
        (calculateConsistencyScore sessions referenceDate).chartData.length = 28) ∧
    (∀ referenceDate : Int,
        (calculateConsistencyScore [] referenceDate).score = 0 ∧
        (calculateMetrics [] (windowStart referenceDate) (windowEnd referenceDate)).longestGap = 28 ∧
        (calculateConsistencyScore [] referenceDate).explanations =
          ["You trained on 0 out of 28 days", "Longest break: 28 days"] ∧
        (calculateConsistencyScore [] referenceDate).chartData.length = 28 ∧
        ∀ e ∈ (calculateConsistencyScore [] referenceDate).chartData, e.count = 0) := by
  have hm : ∀ ps pe : Int, calculateMetrics [] ps pe = ⟨28, 0, 28, 0, [0,0,0,0,0,0,0], 0⟩ :=
    fun ps pe => rfl
  constructor
  · intro sessions referenceDate
    refine ⟨?_, ?_, ?_, ?_⟩
    · rw [score_proj]; omega
    · rw [score_proj]; omega
    · rw [explanations_proj, generateExplanations]
      exact List.cons_ne_nil _ _
    · rw [chartData_proj, generateChartData]
      rw [List.length_map, List.length_range]
  · intro referenceDate
    refine ⟨?_, ?_, ?_, ?_, ?_⟩
    · rw [score_proj, hm]
      rw [calculateFrequencyScore, calculateGapScore, calculateDistributionScore,
        calculateIntensityScore, jsRound]
      norm_num
    · rw [hm]
    · rw [explanations_proj, hm, generateExplanations]
      have h14 : ¬ ((0 : ℚ) ≥ 1.4) := by norm_num
      simp only [h14, if_false]
      decide
    · rw [chartData_proj, generateChartData]
      rw [List.length_map, List.length_range]
    · intro e he
      rw [chartData_proj, generateChartData] at he
      simp only [List.mem_map, List.mem_range] at he
      obtain ⟨i, -, rfl⟩ := he
      simp [relevantSessions]

theorem msPerDay_pos : (0 : Int) < msPerDay := by decide

theorem dayOf_mul (a : Int) : dayOf (a * msPerDay) = a :=
  Int.mul_fdiv_cancel a (by decide)

theorem dayOf_mul_add (a r : Int) (h0 : 0 ≤ r) (h1 : r < msPerDay) :
    dayOf (a * msPerDay + r) = a := by
  rw [dayOf, Int.fdiv_eq_ediv _ (by decide), add_comm, Int.add_mul_ediv_right _ _ (by decide),
    Int.ediv_eq_zero_of_lt h0 h1, zero_add]

theorem dayOf_mono {a b : Int} (h : a ≤ b) : dayOf a ≤ dayOf b := by
  rw [dayOf, dayOf, Int.fdiv_eq_ediv _ (by decide), Int.fdiv_eq_ediv _ (by decide)]
  exact Int.ediv_le_ediv (by decide) h

theorem dayOf_windowStart (referenceDate : Int) :
    dayOf (windowStart referenceDate) = dayOf referenceDate - 27 := by
  rw [windowStart, dayOf_mul]

theorem dayOf_windowEnd (referenceDate : Int) :
    dayOf (windowEnd referenceDate) = dayOf referenceDate := by
  rw [windowEnd, dayOf_mul_add _ _ (by decide) (by decide)]

/-- Claim C5: for every session list and reference date the chart has
exactly 28 entries, entry `i` carrying the `i`-th consecutive UTC date from
`window.start`'s date (= reference date − 27) — hence strictly ascending —
and the bucket count of in-window sessions on that date (0 when none). -/
theorem chartData_shape (sessions : List SessionSummary) (referenceDate : Int)
    (i : ℕ) (hi : i < 28) :
    (calculateConsistencyScore sessions referenceDate).chartData.length = 28 ∧
    (((calculateConsistencyScore sessions referenceDate).chartData.map
        (fun e => e.date)).Pairwise (· < ·)) ∧
    (calculateConsistencyScore sessions referenceDate).chartData[i]? =
      some { date := dayOf referenceDate - 27 + (i : Int)
             count := ((relevantSessions sessions (windowStart referenceDate) (windowEnd referenceDate)).filter
               (fun s => decide (dayOf s.startDate = dayOf referenceDate - 27 + (i : Int)))).length } := by
  rw [chartData_proj, generateChartData]
  refine ⟨by rw [List.length_map, List.length_range], ?_, ?_⟩
  · rw [List.map_map]
    have : ((fun e : DailySessionCount => e.date) ∘ fun (i : ℕ) =>
        (⟨dayOf (windowStart referenceDate) + (i : Int),
          ((relevantSessions sessions (windowStart referenceDate) (windowEnd referenceDate)).filter
            (fun s => decide (dayOf s.startDate = dayOf (windowStart referenceDate) + (i : Int)))).length⟩ : DailySessionCount)) =
        fun (i : ℕ) => dayOf (windowStart referenceDate) + (i : Int) := rfl
    rw [this]
    refine (List.pairwise_lt_range 28).map _ ?_
    intro a b hab
    omega
  · rw [List.getElem?_map, List.getElem?_range hi, dayOf_windowStart]
    rfl

/-- Witness for C5 at the empty session list, reference instant 0, index 0. -/
theorem chartData_shape_witness :
    (0:ℕ) < 28 ∧
    ((calculateConsistencyScore [] 0).chartData.length = 28 ∧
     (((calculateConsistencyScore [] 0).chartData.map (fun e => e.date)).Pairwise (· < ·)) ∧
     (calculateConsistencyScore [] 0).chartData[(0:ℕ)]? =
       some { date := dayOf 0 - 27 + ((0:ℕ) : Int)
              count := ((relevantSessions [] (windowStart 0) (windowEnd 0)).filter
                (fun s => decide (dayOf s.startDate = dayOf 0 - 27 + ((0:ℕ) : Int)))).length }) :=
  ⟨by decide, chartData_shape [] 0 0 (by decide)⟩

/-- Count of nonzero slots of the weekly histogram, as used by both
`calculateDistributionScore` and `generateExplanations`. -/
def distinctActiveWeekdays (m : ConsistencyMetrics) : ℕ :=
  (m.weeklyDistribution.filter (fun c => decide (c > 0))).length

/-- Modelled from the spec: frequency component `(daysWithActivity/28)*50`. -/
def spec_frequency (daysWithActivity : ℕ) : ℚ :=
  ((daysWithActivity : ℚ) / 28) * 50

/-- Modelled from the spec: gap component, 25 for gaps at most 3, 0 for gaps
at least 14, otherwise `25*(14-longestGap)/11`. -/
def spec_gapComponent (longestGap : Int) : ℚ :=
  if longestGap ≤ 3 then 25
  else if 14 ≤ longestGap then 0
  else 25 * (14 - (longestGap : ℚ)) / 11

/-- Modelled from the spec: distribution component `(distinctActiveWeekdays/7)*15`. -/
def spec_distribution (dw : ℕ) : ℚ :=
  ((dw : ℚ) / 7) * 15

/-- Modelled from the spec: intensity component — 0 when there is no active
day or the sessions-per-active-day quotient is at most 1, 10 when it is at
least 2, otherwise `10*(quotient-1)`. -/
def spec_intensity (daysWithActivity totalSessions : ℕ) : ℚ :=
  if daysWithActivity = 0 then 0
  else
    let q : ℚ := (totalSessions : ℚ) / (daysWithActivity : ℚ)
    if q ≤ 1 then 0
    else if 2 ≤ q then 10
    else 10 * (q - 1)

theorem metrics_totalDays (sessions : List SessionSummary) (ps pe : Int) :
    (calculateMetrics sessions ps pe).totalDays = 28 := rfl

theorem metrics_totalSessions (sessions : List SessionSummary) (ps pe : Int) :
    (calculateMetrics sessions ps pe).totalSessions =
      (relevantSessions sessions ps pe).length := rfl

theorem metrics_daysWithActivity (sessions : List SessionSummary) (ps pe : Int) :
    (calculateMetrics sessions ps pe).daysWithActivity =
      ((relevantSessions sessions ps pe).map (fun s => dayOf s.startDate)).dedup.length := rfl

theorem metrics_avg (sessions : List SessionSummary) (ps pe : Int) :
    (calculateMetrics sessions ps pe).averageSessionsPerActiveDay =
      (if (calculateMetrics sessions ps pe).daysWithActivity > 0
       then ((calculateMetrics sessions ps pe).totalSessions : ℚ) /
              ((calculateMetrics sessions ps pe).daysWithActivity : ℚ)
       else 0) := rfl

theorem metrics_weekly (sessions : List SessionSummary) (ps pe : Int) :
    (calculateMetrics sessions ps pe).weeklyDistribution =
      (List.range 7).map
        (fun (w : ℕ) => ((relevantSessions sessions ps pe).filter
          (fun s => decide (weekdayOf s.startDate = (w : Int)))).length) := rfl

theorem metrics_days_zero_weekdays (sessions : List SessionSummary) (ps pe : Int)
    (h : (calculateMetrics sessions ps pe).daysWithActivity = 0) :
    distinctActiveWeekdays (calculateMetrics sessions ps pe) = 0 := by
  rw [metrics_daysWithActivity] at h
  rw [List.length_eq_zero, List.dedup_eq_nil, List.map_eq_nil_iff] at h
  rw [distinctActiveWeekdays, metrics_weekly, h]
  simp

theorem frequency_eq_spec (sessions : List SessionSummary) (ps pe : Int) :
    calculateFrequencyScore (calculateMetrics sessions ps pe) =
      spec_frequency (calculateMetrics sessions ps pe).daysWithActivity := by
  rw [calculateFrequencyScore, spec_frequency, metrics_totalDays]
  norm_num

theorem gap_eq_spec (m : ConsistencyMetrics) :
    calculateGapScore m = spec_gapComponent m.longestGap := by
  rw [calculateGapScore, spec_gapComponent]
  split_ifs with h1 h2
  · rfl
  · rfl
  · ring

theorem distribution_eq_spec (sessions : List SessionSummary) (ps pe : Int) :
    calculateDistributionScore (calculateMetrics sessions ps pe) =
      spec_distribution (distinctActiveWeekdays (calculateMetrics sessions ps pe)) := by
  rw [calculateDistributionScore, spec_distribution]
  split_ifs with h
  · rw [metrics_days_zero_weekdays sessions ps pe h]
    norm_num
  · rfl

theorem intensity_eq_spec (sessions : List SessionSummary) (ps pe : Int) :
    calculateIntensityScore (calculateMetrics sessions ps pe) =
      spec_intensity (calculateMetrics sessions ps pe).daysWithActivity
        (calculateMetrics sessions ps pe).totalSessions := by
  rw [calculateIntensityScore, spec_intensity]
  split_ifs with h
  · rfl
  · have havg := metrics_avg sessions ps pe
    rw [if_pos (Nat.pos_of_ne_zero h)] at havg
    rw [havg]
    set q : ℚ := ((calculateMetrics sessions ps pe).totalSessions : ℚ) /
      ((calculateMetrics sessions ps pe).daysWithActivity : ℚ) with hq
    show (if q ≥ 2 then (10:ℚ) else if q ≤ 1 then 0 else (q - 1) * 10) =
      (if q ≤ 1 then 0 else if 2 ≤ q then 10 else 10 * (q - 1))
    split_ifs with h1 h2 h3 <;> first | rfl | linarith

/-- Claim C1: the composed score equals `round` (half-up) of the sum of the
four spec formulas — frequency `(daysWithActivity/28)*50`, gap
(25 / 0 / `25*(14-g)/11`), distribution `(distinctActiveWeekdays/7)*15`,
intensity (0 / 10 / `10*(q-1)` for the sessions-per-active-day quotient) —
clamped to `[0, 100]`, and always lies in `[0, 100]`. -/
theorem score_composition_and_bounds (sessions : List SessionSummary) (referenceDate : Int) :
    (calculateConsistencyScore sessions referenceDate).score =
      min 100 (max 0 (jsRound
        (spec_frequency (calculateMetrics sessions (windowStart referenceDate) (windowEnd referenceDate)).daysWithActivity +
         spec_gapComponent (calculateMetrics sessions (windowStart referenceDate) (windowEnd referenceDate)).longestGap +
         spec_distribution (distinctActiveWeekdays (calculateMetrics sessions (windowStart referenceDate) (windowEnd referenceDate))) +
         spec_intensity (calculateMetrics sessions (windowStart referenceDate) (windowEnd referenceDate)).daysWithActivity
           (calculateMetrics sessions (windowStart referenceDate) (windowEnd referenceDate)).totalSessions))) ∧
    0 ≤ (calculateConsistencyScore sessions referenceDate).score ∧
    (calculateConsistencyScore sessions referenceDate).score ≤ 100 := by
  refine ⟨?_, by rw [score_proj]; omega, by rw [score_proj]; omega⟩
  rw [score_proj, frequency_eq_spec, gap_eq_spec, distribution_eq_spec, intensity_eq_spec]

/-- Claim C9: `generateExplanations` emits, in fixed order: always the
trained-on sentence first; then the gap sentence with distinguished literals
for gaps 0 and 1; then the weekday-spread sentence chosen by the distinct
active weekday count `w` (none at all when `w = 0`); and finally the
intensity sentence — the quotient formatted to one decimal — if and only if
`averageSessionsPerActiveDay ≥ 1.4`. -/
theorem explanations_contract (m : ConsistencyMetrics) (d : ℕ) (g : Int) (w : ℕ) (r : String)
    (hd : d = m.daysWithActivity) (hg : g = m.longestGap)
    (hw : w = distinctActiveWeekdays m)
    (hr : r = jsToFixed1 m.averageSessionsPerActiveDay) :
    generateExplanations m =
      [s!"You trained on {d} out of 28 days"] ++
      [if g = 0 then "Amazing! No gaps in your training"
       else if g = 1 then "Longest break: 1 day"
       else s!"Longest break: {g} days"] ++
      (if 6 ≤ w then ["Great variety! You trained on 6+ different weekdays"]
       else if 4 ≤ w ∧ w < 6 then [s!"Good spread across {w} different weekdays"]
       else if 0 < w ∧ w < 4 then [s!"Training focused on {w} weekdays"]
       else []) ++
      (if (1.4 : ℚ) ≤ m.averageSessionsPerActiveDay
       then [s!"High intensity: {r} sessions per active day"] else []) := by
  subst hd hg hw hr
  rw [generateExplanations, distinctActiveWeekdays]
  simp only [List.singleton_append, List.cons_append, List.nil_append]
  refine congrArg₂ _ rfl (congrArg₂ _ rfl (congrArg₂ _ ?_ ?_))
  · split_ifs <;> first | rfl | omega
  · split_ifs <;> rfl

/-- Metrics value used to witness the explanation contract. -/
def witnessMetrics : ConsistencyMetrics := ⟨28, 0, 5, 0, [0,0,0,0,0,0,0], 0⟩

/-- The formatted quotient of the witness metrics. -/
def witnessAvgText : String := jsToFixed1 witnessMetrics.averageSessionsPerActiveDay

/-- Witness for C9 at a concrete metrics value (no active day, gap 5). -/
theorem explanations_contract_witness :
    generateExplanations witnessMetrics =
      [s!"You trained on {(0 : ℕ)} out of 28 days"] ++
      [if (5 : Int) = 0 then "Amazing! No gaps in your training"
       else if (5 : Int) = 1 then "Longest break: 1 day"
       else s!"Longest break: {(5 : Int)} days"] ++
      (if 6 ≤ (0 : ℕ) then ["Great variety! You trained on 6+ different weekdays"]
       else if 4 ≤ (0 : ℕ) ∧ (0 : ℕ) < 6 then [s!"Good spread across {(0 : ℕ)} different weekdays"]
       else if 0 < (0 : ℕ) ∧ (0 : ℕ) < 4 then [s!"Training focused on {(0 : ℕ)} weekdays"]
       else []) ++
      (if (1.4 : ℚ) ≤ witnessMetrics.averageSessionsPerActiveDay
       then [s!"High intensity: {witnessAvgText} sessions per active day"] else []) :=
  explanations_contract witnessMetrics 0 5 0 witnessAvgText rfl rfl rfl rfl

theorem windowStart_le_windowEnd (referenceDate : Int) :
    windowStart referenceDate ≤ windowEnd referenceDate := by
  rw [windowStart, windowEnd, msPerDay]
  omega

/-- Claim C8: a session whose start instant is exactly the window start
(UTC midnight of `periodStart`) or exactly the window end (23:59:59.999 UTC
of `periodEnd`) passes the in-window filter, is counted in the metrics'
`totalSessions`, and its date's chart entry has a positive count. -/
theorem boundary_sessions_included (sessions : List SessionSummary) (referenceDate : Int)
    (s : SessionSummary) (hs : s ∈ sessions)
    (hb : s.startDate = windowStart referenceDate ∨ s.startDate = windowEnd referenceDate) :
    s ∈ relevantSessions sessions (windowStart referenceDate) (windowEnd referenceDate) ∧
    0 < (calculateMetrics sessions (windowStart referenceDate) (windowEnd referenceDate)).totalSessions ∧
    ∃ e ∈ (calculateConsistencyScore sessions referenceDate).chartData,
      e.date = dayOf s.startDate ∧ 0 < e.count := by
  have hwin : windowStart referenceDate ≤ s.startDate ∧
      s.startDate ≤ windowEnd referenceDate := by
    rcases hb with h | h <;> rw [h]
    · exact ⟨le_refl _, windowStart_le_windowEnd referenceDate⟩
    · exact ⟨windowStart_le_windowEnd referenceDate, le_refl _⟩
  have hrel : s ∈ relevantSessions sessions (windowStart referenceDate) (windowEnd referenceDate) := by
    rw [relevantSessions, List.mem_filter]
    exact ⟨hs, by simpa using hwin⟩
  refine ⟨hrel, ?_, ?_⟩
  · rw [metrics_totalSessions]
    exact List.length_pos_of_mem hrel
  · -- the chart entry at offset 0 (window start) or 27 (window end)
    have hday : dayOf s.startDate = dayOf referenceDate - 27 ∨
        dayOf s.startDate = dayOf referenceDate := by
      rcases hb with h | h <;> rw [h]
      · exact Or.inl (dayOf_windowStart referenceDate)
      · exact Or.inr (dayOf_windowEnd referenceDate)
    have hi : ∃ i : ℕ, i < 28 ∧ dayOf s.startDate = dayOf (windowStart referenceDate) + (i : Int) := by
      rw [dayOf_windowStart]
      rcases hday with h | h
      · exact ⟨0, by omega, by rw [h]; omega⟩
      · exact ⟨27, by omega, by rw [h]; omega⟩
    obtain ⟨i, hi28, hieq⟩ := hi
    rw [chartData_proj, generateChartData]
    refine ⟨_, List.mem_map.2 ⟨i, List.mem_range.2 hi28, rfl⟩, ?_, ?_⟩
    · exact hieq.symm
    · have : s ∈ (relevantSessions sessions (windowStart referenceDate) (windowEnd referenceDate)).filter
          (fun x => decide (dayOf x.startDate = dayOf (windowStart referenceDate) + (i : Int))) := by
        rw [List.mem_filter]
        exact ⟨hrel, by simpa using hieq⟩
      exact List.length_pos_of_mem this

/-- A session starting exactly at the window start instant of reference 0. -/
def boundarySession : SessionSummary := ⟨"a", "u", windowStart 0, windowStart 0, 0⟩

/-- Witness for C8 at a concrete boundary session. -/
theorem boundary_sessions_included_witness :
    boundarySession ∈ relevantSessions [boundarySession] (windowStart 0) (windowEnd 0) ∧
    0 < (calculateMetrics [boundarySession] (windowStart 0) (windowEnd 0)).totalSessions ∧
    ∃ e ∈ (calculateConsistencyScore [boundarySession] 0).chartData,
      e.date = dayOf boundarySession.startDate ∧ 0 < e.count :=
  boundary_sessions_included [boundarySession] 0 boundarySession
    (List.mem_singleton.2 rfl) (Or.inl rfl)

theorem longestGap_perm (days days' : List Int) (hperm : days.Perm days')
    (ps pe : Int) :
    calculateLongestGap days ps pe = calculateLongestGap days' ps pe := by
  have hsorted : days.insertionSort (· ≤ ·) = days'.insertionSort (· ≤ ·) :=
    List.eq_of_perm_of_sorted
      ((List.perm_insertionSort _ _).trans (hperm.trans (List.perm_insertionSort _ _).symm))
      (List.sorted_insertionSort _ _) (List.sorted_insertionSort _ _)
  simp only [calculateLongestGap]
  rw [hsorted, hperm.isEmpty_eq]

theorem metrics_perm (sessions sessions' : List SessionSummary) (ps pe : Int)
    (h : sessions.Perm sessions') :
    calculateMetrics sessions ps pe = calculateMetrics sessions' ps pe := by
  have hrel : (relevantSessions sessions ps pe).Perm (relevantSessions sessions' ps pe) :=
    h.filter _
  have hlen : (relevantSessions sessions ps pe).length =
      (relevantSessions sessions' ps pe).length := hrel.length_eq
  have hdedup : (((relevantSessions sessions ps pe).map (fun s => dayOf s.startDate)).dedup).Perm
      (((relevantSessions sessions' ps pe).map (fun s => dayOf s.startDate)).dedup) :=
    (hrel.map _).dedup
  have hdays : ((relevantSessions sessions ps pe).map (fun s => dayOf s.startDate)).dedup.length =
      ((relevantSessions sessions' ps pe).map (fun s => dayOf s.startDate)).dedup.length :=
    hdedup.length_eq
  have hgap := longestGap_perm _ _ hdedup ps pe
  have hweek : (List.range 7).map
      (fun (w : ℕ) => ((relevantSessions sessions ps pe).filter
        (fun s => decide (weekdayOf s.startDate = (w : Int)))).length) =
      (List.range 7).map
      (fun (w : ℕ) => ((relevantSessions sessions' ps pe).filter
        (fun s => decide (weekdayOf s.startDate = (w : Int)))).length) :=
    List.map_congr_left (fun w _ => (hrel.filter _).length_eq)
  simp only [calculateMetrics]
  rw [hlen, hdays, hgap, hweek]

theorem chart_perm (sessions sessions' : List SessionSummary) (ps pe : Int)
    (h : sessions.Perm sessions') :
    generateChartData sessions ps pe = generateChartData sessions' ps pe := by
  have hrel : (relevantSessions sessions ps pe).Perm (relevantSessions sessions' ps pe) :=
    h.filter _
  simp only [generateChartData]
  exact List.map_congr_left (fun i _ =>
    congrArg (DailySessionCount.mk _) (hrel.filter _).length_eq)

/-- Claim C7: the result of `calculateConsistencyScore` is invariant under
any permutation of the input session list — the aggregation is commutative
and order-independent. -/
theorem result_perm_invariant (sessions sessions' : List SessionSummary)
    (referenceDate : Int) (h : sessions.Perm sessions') :
    calculateConsistencyScore sessions referenceDate =
      calculateConsistencyScore sessions' referenceDate := by
  simp only [calculateConsistencyScore]
  rw [metrics_perm sessions sessions' _ _ h, chart_perm sessions sessions' _ _ h]

/-- Witness for C7: swapping two concrete sessions leaves the result intact. -/
theorem result_perm_invariant_witness :
    calculateConsistencyScore [mkSession 19741 10, mkSession 19745 10] fixtureRef =
      calculateConsistencyScore [mkSession 19745 10, mkSession 19741 10] fixtureRef :=
  result_perm_invariant _ _ fixtureRef
    (List.Perm.swap (mkSession 19745 10) (mkSession 19741 10) [])

theorem sum_range_list (f : ℕ → ℕ) (n : ℕ) :
    ((List.range n).map f).sum = ∑ i in Finset.range n, f i := by
  induction n with
  | zero => simp
  | succ n ih => rw [List.range_succ, Finset.sum_range_succ, List.map_append, List.sum_append, ih]; simp

theorem sum_day_indicator (n : ℕ) (a d : Int) (h1 : a ≤ d) (h2 : d < a + n) :
    (∑ i in Finset.range n, if d = a + (i : Int) then 1 else 0) = 1 := by
  have hk : ((d - a).toNat : Int) = d - a := Int.toNat_of_nonneg (by omega)
  have hcong : ∀ i ∈ Finset.range n,
      (if d = a + (i : Int) then 1 else 0) = (if i = (d - a).toNat then 1 else 0) := by
    intro i hi
    have h3 : (d = a + (i : Int)) ↔ (i = (d - a).toNat) := by omega
    simp only [h3]
  rw [Finset.sum_congr rfl hcong, Finset.sum_ite_eq' (Finset.range n) _ (fun _ => 1),
    if_pos (Finset.mem_range.2 (by omega))]

theorem sum_bucket_lengths (l : List SessionSummary) (a : Int) (n : ℕ)
    (hl : ∀ s ∈ l, a ≤ dayOf s.startDate ∧ dayOf s.startDate < a + n) :
    (∑ i in Finset.range n,
      (l.filter (fun s => decide (dayOf s.startDate = a + (i : Int)))).length) = l.length := by
  induction l with
  | nil => simp
  | cons s t ih =>
    have hs := hl s (List.mem_cons_self s t)
    have ht : ∀ x ∈ t, a ≤ dayOf x.startDate ∧ dayOf x.startDate < a + n :=
      fun x hx => hl x (List.mem_cons_of_mem s hx)
    have hterm : ∀ i ∈ Finset.range n,
        ((s :: t).filter (fun x => decide (dayOf x.startDate = a + (i : Int)))).length =
          (if dayOf s.startDate = a + (i : Int) then 1 else 0) +
            (t.filter (fun x => decide (dayOf x.startDate = a + (i : Int)))).length := by
      intro i _
      rw [List.filter_cons]
      by_cases h : dayOf s.startDate = a + (i : Int) <;> simp [h]
      omega
    rw [Finset.sum_congr rfl hterm, Finset.sum_add_distrib,
      sum_day_indicator n a (dayOf s.startDate) hs.1 hs.2, ih ht, List.length_cons]
    omega

theorem relevant_day_bounds (sessions : List SessionSummary) (referenceDate : Int) :
    ∀ s ∈ relevantSessions sessions (windowStart referenceDate) (windowEnd referenceDate),
      dayOf (windowStart referenceDate) ≤ dayOf s.startDate ∧
      dayOf s.startDate < dayOf (windowStart referenceDate) + (28 : ℕ) := by
  intro s hsm
  rw [relevantSessions, List.mem_filter] at hsm
  have hw : windowStart referenceDate ≤ s.startDate ∧
      s.startDate ≤ windowEnd referenceDate := by simpa using hsm.2
  have h1 := dayOf_mono hw.1
  have h2 := dayOf_mono hw.2
  rw [dayOf_windowEnd] at h2
  rw [dayOf_windowStart] at h1 ⊢
  omega

/-- Claim C6: the chart counts sum to the number of sessions whose start
instant lies in `[periodStart, periodEnd]` (inclusive both ends), which is
exactly the `totalSessions` the metrics are computed from. -/
theorem chart_sum_consistency (sessions : List SessionSummary) (referenceDate : Int) :
    (((calculateConsistencyScore sessions referenceDate).chartData).map (fun e => e.count)).sum =
      (relevantSessions sessions (windowStart referenceDate) (windowEnd referenceDate)).length ∧
    (calculateMetrics sessions (windowStart referenceDate) (windowEnd referenceDate)).totalSessions =
      (relevantSessions sessions (windowStart referenceDate) (windowEnd referenceDate)).length := by
  refine ⟨?_, rfl⟩
  rw [chartData_proj]
  simp only [generateChartData]
  rw [List.map_map]
  have hcomp : ((fun e : DailySessionCount => e.count) ∘ (fun (i : ℕ) =>
      (⟨dayOf (windowStart referenceDate) + (i : Int),
        ((relevantSessions sessions (windowStart referenceDate) (windowEnd referenceDate)).filter
          (fun s => decide (dayOf s.startDate = dayOf (windowStart referenceDate) + (i : Int)))).length⟩ :
        DailySessionCount))) =
      fun (i : ℕ) =>
        ((relevantSessions sessions (windowStart referenceDate) (windowEnd referenceDate)).filter
          (fun s => decide (dayOf s.startDate = dayOf (windowStart referenceDate) + (i : Int)))).length := rfl
  rw [hcomp, sum_range_list]
  exact sum_bucket_lengths _ _ 28 (relevant_day_bounds sessions referenceDate)

theorem fdiv_sub_mul (a b : Int) :
    (a * msPerDay - b * msPerDay).fdiv msPerDay = a - b := by
  rw [← sub_mul]
  exact Int.mul_fdiv_cancel _ (by decide)

theorem fdiv_boundary (a : Int) :
    (a * msPerDay + (msPerDay - 1)).fdiv msPerDay = a :=
  dayOf_mul_add a (msPerDay - 1) (by decide) (by decide)

/-- Modelled from the spec: the interior gaps — for each consecutive pair of
active dates, `(days between) − 1`. -/
def spec_interiorGaps : List Int → List Int
  | a :: b :: rest => (b - a - 1) :: spec_interiorGaps (b :: rest)
  | _ => []

/-- Modelled from the spec: the three gap categories over the ascending
active-day list — leading gap from the window start's date, the interior
gaps, and the trailing gap to the window end's date. -/
def spec_gapList (sortedDays : List Int) (startDay endDay : Int) : List Int :=
  match sortedDays with
  | [] => []
  | f :: rest =>
      (f - startDay) :: (spec_interiorGaps (f :: rest) ++ [endDay - (f :: rest).getLastD 0])

theorem interiorGapsMax_eq_foldl (l : List Int) :
    ∀ acc : Int, interiorGapsMax (l.map (· * msPerDay)) acc =
      (spec_interiorGaps l).foldl max acc := by
  induction l with
  | nil => intro acc; rfl
  | cons a t ih =>
    intro acc
    cases t with
    | nil => rfl
    | cons b rest =>
      show interiorGapsMax ((b :: rest).map (· * msPerDay))
          (max acc ((b * msPerDay - a * msPerDay).fdiv msPerDay - 1)) = _
      rw [fdiv_sub_mul, ih]
      rfl

theorem le_foldl_max (l : List Int) : ∀ acc : Int, acc ≤ l.foldl max acc := by
  induction l with
  | nil => intro acc; exact le_refl acc
  | cons x t ih =>
    intro acc
    exact le_trans (le_max_left acc x) (ih (max acc x))

/-- Claim C3: for a non-empty active-day set lying in the window,
`calculateLongestGap` returns exactly the maximum of the spec's three gap
categories — leading gap, interior gaps (days between − 1), trailing gap —
computed over the ascending active dates (a value that is never negative),
and for an empty bucket map it returns 28. -/
theorem longestGap_spec :
    (∀ (days : List Int) (startDay endDay : Int),
        days ≠ [] →
        (∀ d ∈ days, startDay ≤ d ∧ d ≤ endDay) →
        (spec_gapList (days.insertionSort (· ≤ ·)) startDay endDay).max? =
          some (calculateLongestGap days (startDay * msPerDay)
            (endDay * msPerDay + (msPerDay - 1))) ∧
        0 ≤ calculateLongestGap days (startDay * msPerDay)
              (endDay * msPerDay + (msPerDay - 1))) ∧
    (∀ ps pe : Int, calculateLongestGap [] ps pe = 28) := by
  constructor
  · intro days startDay endDay hne hwin
    have hperm := List.perm_insertionSort (· ≤ ·) days
    have hsne : days.insertionSort (· ≤ ·) ≠ [] := by
      intro h
      exact hne (List.Perm.eq_nil (h ▸ hperm).symm)
    obtain ⟨f, rest, hs⟩ := List.exists_cons_of_ne_nil hsne
    have hfmem : f ∈ days := hperm.subset (hs ▸ List.mem_cons_self f rest)
    have h0f : 0 ≤ f - startDay := by
      have := (hwin f hfmem).1
      omega
    have hempty : days.isEmpty = false := by
      cases days with
      | nil => exact absurd rfl hne
      | cons x l => rfl
    have hcalc : calculateLongestGap days (startDay * msPerDay)
        (endDay * msPerDay + (msPerDay - 1)) =
        max ((spec_interiorGaps (f :: rest)).foldl max (f - startDay))
          (endDay - (f :: rest).getLastD 0) := by
      rw [calculateLongestGap, hempty]
      simp only [Bool.false_eq_true, if_false, hs, List.headD_cons]
      rw [fdiv_sub_mul, max_eq_right h0f, interiorGapsMax_eq_foldl]
      have htr : endDay * msPerDay + (msPerDay - 1) - (f :: rest).getLastD 0 * msPerDay =
          (endDay - (f :: rest).getLastD 0) * msPerDay + (msPerDay - 1) := by ring
      rw [htr, fdiv_boundary]
    refine ⟨?_, ?_⟩
    · rw [hcalc, hs, spec_gapList]
      show some (((spec_interiorGaps (f :: rest) ++ [endDay - (f :: rest).getLastD 0]).foldl
        max (f - startDay))) = _
      rw [List.foldl_append]
      rfl
    · rw [hcalc]
      have h1 : (0 : Int) ≤ (spec_interiorGaps (f :: rest)).foldl max (f - startDay) :=
        le_trans h0f (le_foldl_max _ _)
      exact le_trans h1 (le_max_left _ _)
  · intro ps pe
    rfl

/-- Witness for C3 at the active days 5 and 2 in the window of day
indices 0 .. 27. -/
theorem longestGap_spec_witness :
    (spec_gapList (([5, 2] : List Int).insertionSort (· ≤ ·)) 0 27).max? =
      some (calculateLongestGap [5, 2] (0 * msPerDay) (27 * msPerDay + (msPerDay - 1))) ∧
    0 ≤ calculateLongestGap [5, 2] (0 * msPerDay) (27 * msPerDay + (msPerDay - 1)) :=
  longestGap_spec.1 [5, 2] 0 27 (by decide) (by decide)
